import Mathlib

/-!
# Time-series normalization and chart composition: a shallow embedding

This file embeds the data-transformation core of the backtesting interface:
the candle/equity/indicator normalizers of `App.tsx`, the chart-surface
lifecycle of `CandlestickChart.tsx`, and the indicator color-assignment loop
of the chart integration guide.  JavaScript runtime values that the code
moves around are modelled exactly: numbers as rationals (no arithmetic is
ever performed on them, they are only copied), JS `null` as an explicit
constructor, and an absent object field as `Option.none` (JS `undefined`).
JS objects written to by string key are modelled as association lists with
JS write semantics (overwrite in place, else append; keys are unique in any
object produced by `Object.entries`).
-/

set_option autoImplicit false

namespace Backtest

/-- A JS runtime value that can sit in a flexible indicator record field:
the TypeScript index signature is `string | number | null`. -/
inductive JSValue where
  | num (q : ℚ)
  | str (s : String)
  | null
  deriving DecidableEq, Repr

/-- Backend candle record (`BackendCandle` in `App.tsx`): datetime string
plus OHLCV numbers.  `open` is a Lean keyword, hence `open_`. -/
structure BackendCandle where
  datetime : String
  open_ : ℚ
  high : ℚ
  low : ℚ
  close : ℚ
  volume : ℚ
  deriving DecidableEq, Repr

/-- Backend equity point (`EquityData` in `App.tsx`). -/
structure EquityData where
  datetime : String
  equity : ℚ
  deriving DecidableEq, Repr

/-- Backend indicator record (`IndicatorDataPoint` in `App.tsx`):
a `datetime` string plus an arbitrary set of named fields.  The flexible
fields are kept as an association list in object-key insertion order;
a key absent from the list reads as JS `undefined` (`Option.none`). -/
structure IndicatorDataPoint where
  datetime : String
  fields : List (String × JSValue)
  deriving DecidableEq, Repr

/-- Backend trade signal (`TradeSignal` in `App.tsx`). -/
inductive TradeType where
  | buy
  | sell
  deriving DecidableEq, Repr

structure TradeSignal where
  datetime : String
  type : TradeType
  price : Option ℚ
  deriving DecidableEq, Repr

/-- Chart-side candle point (`CandleData` in `App.tsx`). -/
structure CandleData where
  time : String
  open_ : ℚ
  high : ℚ
  low : ℚ
  close : ℚ
  deriving DecidableEq, Repr

/-- Chart-side volume point (`VolumeData` in `App.tsx`). -/
structure VolumeData where
  time : String
  value : ℚ
  deriving DecidableEq, Repr

/-- Chart-side equity point: the shape produced by
`convertEquityToChartData` (`{ time, value }` with a numeric value). -/
structure EquityPoint where
  time : String
  value : ℚ
  deriving DecidableEq, Repr

/-- Chart-side indicator line point (`LineData` in `App.tsx`).  The code
writes `value: point[field] as number`; the `as` cast is erased at runtime,
so the value is the raw field lookup, which can be a number, a string, or
JS `undefined` (`Option.none`) when the field is absent from the record.
(`null` is filtered out before the map and can never appear here, which is
exactly claim C1's surviving half.) -/
structure LineData where
  time : String
  value : Option JSValue
  deriving DecidableEq, Repr

/-- Chart-side trade marker: the shape produced by
`convertTradesToMarkers`. -/
structure TradeMarker where
  time : String
  type : TradeType
  price : Option ℚ
  deriving DecidableEq, Repr

/-! ## JS string and object primitives -/

/-- `String.prototype.split` with a single-character separator, on the
character list: `"aTb".split('T') = ["a","b"]`, `"".split('T') = [""]`.
The result is always non-empty. -/
def jsSplitChar (sep : Char) : List Char → List (List Char)
  | [] => [[]]
  | c :: rest =>
    match jsSplitChar sep rest with
    | [] => [[]]
    | g :: gs => if c = sep then [] :: g :: gs else (c :: g) :: gs

/-- `datetime.split('T')[0]`: the date-truncation rule shared by every
normalizer (candles, equity, indicators, trades). -/
def truncateDate (s : String) : String :=
  String.mk ((jsSplitChar 'T' s.data).headD [])

/-- Writing `obj[k] = v` on a JS object modelled as an association list:
overwrite in place when the key exists, otherwise append. -/
def jsObjSet {α : Type} (obj : List (String × α)) (k : String) (v : α) :
    List (String × α) :=
  if obj.any (fun e => e.1 == k) then
    obj.map (fun e => if e.1 == k then (k, v) else e)
  else
    obj ++ [(k, v)]

/-- Reading `obj[k]` on a JS object: the value at the first matching key,
or `undefined` (`none`). -/
def jsLookup {α : Type} (obj : List (String × α)) (k : String) : Option α :=
  (obj.find? (fun e => e.1 == k)).map Prod.snd

/-- Reading `point[field]` on a flexible indicator record: `undefined`
(`none`) when the field is absent. -/
def getField (p : IndicatorDataPoint) (k : String) : Option JSValue :=
  jsLookup p.fields k

/-! ## The normalizers of `App.tsx` -/

/-- `convertCandlesToChartData` (`App.tsx:280-308`): filter out candles with
falsy (empty) datetime, truncate the datetime, and split the record into a
price point and a volume point. -/
def convertCandlesToChartData (candles : List BackendCandle) :
    List CandleData × List VolumeData :=
  ((candles.filter (fun c => c.datetime != "")).map (fun c =>
      { time := truncateDate c.datetime
        open_ := c.open_
        high := c.high
        low := c.low
        close := c.close }),
   (candles.filter (fun c => c.datetime != "")).map (fun c =>
      { time := truncateDate c.datetime
        value := c.volume }))

/-- `convertEquityToChartData` (`App.tsx:311-321`): same filter and
truncation, renaming the `equity` field to `value`. -/
def convertEquityToChartData (equity : List EquityData) : List EquityPoint :=
  (equity.filter (fun p => p.datetime != "")).map (fun p =>
    { time := truncateDate p.datetime
      value := p.equity })

/-- `Object.keys(samplePoint).filter(key => key !== 'datetime')`
(`App.tsx:339`): the indicator's inferred field schema.  The `datetime`
key of the record lives in the `datetime` structure field, so the
remaining keys in insertion order are exactly the non-`datetime` keys of
the JS object; the filter mirrors the source line. -/
def fieldsOfSample (s : IndicatorDataPoint) : List String :=
  (s.fields.map Prod.fst).filter (fun k => k != "datetime")

/-- The per-field line series of `convertIndicatorsToChartData`
(`App.tsx:344-352`): keep records whose datetime is truthy and whose field
value is not strictly equal to JS `null` (an absent field reads as
`undefined`, and `undefined !== null` holds in JS, so absent values pass
the filter), then truncate the datetime and copy the raw field value. -/
def lineDataFor (dataPoints : List IndicatorDataPoint) (field : String) :
    List LineData :=
  (dataPoints.filter (fun p =>
      p.datetime != "" && getField p field != some JSValue.null)).map (fun p =>
    { time := truncateDate p.datetime
      value := getField p field })

/-- The inner loop of `convertIndicatorsToChartData` (`App.tsx:343-356`):
`result[indicatorName][field] = lineData` for each schema field in order,
building up the per-indicator JS object. -/
def buildFieldLines (dataPoints : List IndicatorDataPoint)
    (fields : List String) : List (String × List LineData) :=
  fields.foldl (fun obj f => jsObjSet obj f (lineDataFor dataPoints f)) []

/-- One indicator's entry in the result of `convertIndicatorsToChartData`:
`result[indicatorName] = {}` is written first; if no record has a truthy
datetime the loop `continue`s, leaving the empty object; otherwise the
schema comes from the first such record (the sample) and each field gets
its line series. -/
def convertOneIndicator (dataPoints : List IndicatorDataPoint) :
    List (String × List LineData) :=
  match dataPoints.find? (fun p => p.datetime != "") with
  | none => []
  | some sample => buildFieldLines dataPoints (fieldsOfSample sample)

/-- `convertIndicatorsToChartData` (`App.tsx:324-361`): iterate the
indicator entries in input order, writing each indicator's converted
object into the result object. -/
def convertIndicatorsToChartData
    (indicators : List (String × List IndicatorDataPoint)) :
    List (String × List (String × List LineData)) :=
  indicators.foldl (fun result e => jsObjSet result e.1 (convertOneIndicator e.2)) []

/-- `convertTradesToMarkers` (`App.tsx:364-370`). -/
def convertTradesToMarkers (trades : List TradeSignal) : List TradeMarker :=
  trades.map (fun t =>
    { time := truncateDate t.datetime
      type := t.type
      price := t.price })

/-- The line series claim C1 predicts, written from the spec's words
(\"filtering out records with empty datetime OR a null/absent value for
that field\"): used only to compare the code's behaviour against the
claim. -/
def claimedLineDataFor (dataPoints : List IndicatorDataPoint) (field : String) :
    List LineData :=
  (dataPoints.filter (fun p =>
      p.datetime != "" && getField p field != some JSValue.null
        && getField p field != none)).map (fun p =>
    { time := truncateDate p.datetime
      value := getField p field })

/-! ## Chart-surface lifecycle (`CandlestickChart.tsx`)

The mutable `chartRef.current : IChartApi | null` is modelled as an
`Option Chart`; JS member access on `null` throws a `TypeError`, which is
modelled with `Except`, while optional chaining (`?.`) short-circuits to a
successful no-op. -/

/-- The rendering surface handle held in `chartRef.current`. -/
structure Chart where
  width : Nat
  height : Nat
  fitted : Bool
  deriving DecidableEq, Repr

/-- `chart.timeScale().fitContent()` on a live chart. -/
def fitContent (c : Chart) : Chart :=
  { c with fitted := true }

/-- `chart.applyOptions({ width, height })` on a live chart. -/
def applyOptionsSize (w h : Nat) (c : Chart) : Chart :=
  { c with width := w, height := h }

/-- The deferred re-fit thunk scheduled by the `ResizeObserver` callback
(`CandlestickChart.tsx:141-143`): `chartRef.current?.timeScale().fitContent()`.
Optional chaining makes the `null` case a successful no-op rather than a
`TypeError`. -/
def deferredRefit (chartRef : Option Chart) : Except String (Option Chart) :=
  match chartRef with
  | none => Except.ok none
  | some c => Except.ok (some (fitContent c))

/-- The effect cleanup (`CandlestickChart.tsx:126-131`):
`if (chartRef.current) { chartRef.current.remove(); chartRef.current = null }`.
The guard makes destruction of an already-destroyed surface (a `null` ref)
a successful no-op; without it, `null.remove()` would throw. -/
def destroySurface (chartRef : Option Chart) : Except String (Option Chart) :=
  if chartRef.isSome then
    Except.ok none
  else
    Except.ok chartRef

/-! ## Indicator series registration and color assignment

From the indicator-rendering loop of the chart integration guide
(`src/unnamed/part_000`, the `indicatorColors` palette and the
`colorIndex` loop): the component in `src/src/components` omits this
loop, so the guide's listing is the deciding source. -/

/-- The fixed cyclic palette (`indicatorColors`). -/
def indicatorColors : List String :=
  ["#26a69a", "#ef5350", "#ab47bc", "#ffa726",
   "#42a5f5", "#66bb6a", "#ec407a", "#ffee58"]

/-- One step of the rendering loop: skip an empty line
(`if (lineData.length === 0) continue`), otherwise register
`"<indicator>.<line>"` with `indicatorColors[colorIndex % length]` and
advance `colorIndex`.  The state is (seriesMap entries so far, colorIndex). -/
def addLineSeries (st : List (String × String) × Nat) (indicatorName : String)
    (entry : String × List LineData) : List (String × String) × Nat :=
  if entry.2 = [] then st
  else
    (st.1 ++ [(indicatorName ++ "." ++ entry.1,
               indicatorColors.getD (st.2 % indicatorColors.length) "")],
     st.2 + 1)

/-- The full nested loop: indicators in input iteration order, lines within
an indicator in their object order, one shared `colorIndex` starting at 0.
Returns the identity-to-color assignment in registration order. -/
def populateIndicatorSeries
    (indicatorsData : List (String × List (String × List LineData))) :
    List (String × String) :=
  (indicatorsData.foldl
    (fun st ind => ind.2.foldl (fun st2 line => addLineSeries st2 ind.1 line) st)
    ([], 0)).1

/-- The traversal-order list of registered identities: non-empty lines
only, indicators in input order, lines in discovery order. -/
def nonEmptyIdentities :
    List (String × List (String × List LineData)) → List String
  | [] => []
  | ind :: rest =>
      (ind.2.filter (fun line => line.2 != [])).map
        (fun line => ind.1 ++ "." ++ line.1)
      ++ nonEmptyIdentities rest

/-- Pair each list element with its index, starting from `n`. -/
def idxFrom {α : Type} (n : Nat) : List α → List (Nat × α)
  | [] => []
  | a :: l => (n, a) :: idxFrom (n + 1) l

/-! ## The series the mounted component materializes
(`CandlestickChart.tsx:24-132`) -/

/-- A series created on the chart surface, with the options that identify
it: the candlestick series, the volume histogram (overlay scale with
margins 0.8/0), and the equity line (left scale). -/
inductive ChartSeries where
  | candlestick (data : List CandleData)
  | histogram (color : String) (data : List VolumeData)
      (scaleMarginTop : ℚ) (scaleMarginBottom : ℚ)
  | line (color : String) (lineWidth : Nat) (priceScaleId : String)
      (data : List EquityPoint)
  deriving DecidableEq, Repr

/-- Everything `App.tsx:483-490` passes to `<CandlestickChart …>`,
including the `indicatorsData` and `trades` attributes that the
component's prop interface (`CandlestickChartProps`,
`CandlestickChart.tsx:24-29`) does not declare. -/
structure PassedProps where
  priceData : List CandleData
  volumeData : List VolumeData
  equityData : List EquityPoint
  indicatorsData : List (String × List (String × List LineData))
  trades : List TradeMarker
  height : Nat
  deriving DecidableEq, Repr

/-- The series the mount effect creates (`CandlestickChart.tsx:73-120`):
always the candlestick series; the volume histogram only when
`volumeData.length > 0`; the equity line only when
`equityData.length > 0`.  The component destructures only
`priceData`, `volumeData`, `equityData` and `height`, so no other
passed attribute is read. -/
def materializedSeries (p : PassedProps) : List ChartSeries :=
  [ChartSeries.candlestick p.priceData]
  ++ (if p.volumeData ≠ [] then
        [ChartSeries.histogram "#182233" p.volumeData (4/5 : ℚ) 0]
      else [])
  ++ (if p.equityData ≠ [] then
        [ChartSeries.line "#2962FF" 2 "left" p.equityData]
      else [])

/-! ## Association-list lemmas for the JS-object embedding -/

theorem jsObjSet_of_not_mem {α : Type} (obj : List (String × α)) (k : String)
    (v : α) (h : ∀ e ∈ obj, e.1 ≠ k) : jsObjSet obj k v = obj ++ [(k, v)] := by
  unfold jsObjSet
  rw [if_neg]
  simp only [List.any_eq_true, beq_iff_eq, not_exists, not_and]
  intro e he
  exact h e he

theorem foldl_jsObjSet {β α : Type} (key : β → String) (val : β → α) :
    ∀ (l : List β) (acc : List (String × α)),
      (acc.map Prod.fst ++ l.map key).Nodup →
      l.foldl (fun r e => jsObjSet r (key e) (val e)) acc
        = acc ++ l.map (fun e => (key e, val e)) := by
  intro l
  induction l with
  | nil => intro acc _; simp
  | cons e rest ih =>
    intro acc h
    have hmem : key e ∉ acc.map Prod.fst := by
      simp only [List.map_cons, List.nodup_append] at h
      intro hk
      exact h.2.2 hk (List.mem_cons_self _ _)
    have hset : jsObjSet acc (key e) (val e) = acc ++ [(key e, val e)] := by
      apply jsObjSet_of_not_mem
      intro x hx hxk
      exact hmem (hxk ▸ List.mem_map_of_mem Prod.fst hx)
    have h' : ((acc ++ [(key e, val e)]).map Prod.fst ++ rest.map key).Nodup := by
      simpa [List.append_assoc] using h
    simp only [List.foldl_cons, hset, ih _ h', List.map_cons]
    simp [List.append_assoc]

theorem jsLookup_map {β α : Type} (key : β → String) (val : β → α) :
    ∀ (l : List β), (l.map key).Nodup → ∀ e ∈ l,
      jsLookup (l.map (fun x => (key x, val x))) (key e) = some (val e) := by
  intro l
  induction l with
  | nil => intro _ e he; cases he
  | cons x rest ih =>
    intro h e he
    simp only [List.map_cons, List.nodup_cons] at h
    rcases List.mem_cons.mp he with rfl | hrest
    · simp [jsLookup, List.find?_cons_of_pos]
    · have hne : (key x == key e) = false := by
        simp only [beq_eq_false_iff_ne, ne_eq]
        intro hk
        exact h.1 (hk ▸ List.mem_map_of_mem key hrest)
      have := ih h.2 e hrest
      simpa [jsLookup, List.find?_cons_of_neg, hne] using this

theorem convertIndicators_eq_map (indicators : List (String × List IndicatorDataPoint))
    (h : (indicators.map Prod.fst).Nodup) :
    convertIndicatorsToChartData indicators
      = indicators.map (fun e => (e.1, convertOneIndicator e.2)) := by
  simpa using foldl_jsObjSet Prod.fst (fun e => convertOneIndicator e.2) indicators [] (by simpa)

theorem convertIndicators_lookup (indicators : List (String × List IndicatorDataPoint))
    (h : (indicators.map Prod.fst).Nodup) (name : String)
    (pts : List IndicatorDataPoint) (hmem : (name, pts) ∈ indicators) :
    jsLookup (convertIndicatorsToChartData indicators) name
      = some (convertOneIndicator pts) := by
  rw [convertIndicators_eq_map indicators h]
  exact jsLookup_map Prod.fst (fun e => convertOneIndicator e.2) indicators h (name, pts) hmem

theorem buildFieldLines_eq_map (dataPoints : List IndicatorDataPoint)
    (fields : List String) (h : fields.Nodup) :
    buildFieldLines dataPoints fields
      = fields.map (fun f => (f, lineDataFor dataPoints f)) := by
  simpa using foldl_jsObjSet id (lineDataFor dataPoints) fields [] (by simpa)

theorem convertOneIndicator_lookup (dataPoints : List IndicatorDataPoint)
    (s : IndicatorDataPoint)
    (hs : dataPoints.find? (fun p => p.datetime != "") = some s)
    (hn : (fieldsOfSample s).Nodup) (field : String)
    (hf : field ∈ fieldsOfSample s) :
    jsLookup (convertOneIndicator dataPoints) field
      = some (lineDataFor dataPoints field) := by
  have hone : convertOneIndicator dataPoints
      = buildFieldLines dataPoints (fieldsOfSample s) := by
    unfold convertOneIndicator
    rw [hs]
  rw [hone, buildFieldLines_eq_map dataPoints _ hn]
  simpa using jsLookup_map id (lineDataFor dataPoints) (fieldsOfSample s) (by simpa) field hf

/-! ## Date-truncation lemmas -/

theorem jsSplitChar_ne_nil (sep : Char) (l : List Char) :
    jsSplitChar sep l ≠ [] := by
  cases l with
  | nil => simp [jsSplitChar]
  | cons c rest =>
    simp only [jsSplitChar]
    split
    · simp
    · split <;> simp

theorem jsSplitChar_headD (sep : Char) (l : List Char) :
    (jsSplitChar sep l).headD [] = l.takeWhile (fun c => c != sep) := by
  induction l with
  | nil => rfl
  | cons c rest ih =>
    simp only [jsSplitChar]
    cases h : jsSplitChar sep rest with
    | nil => exact absurd h (jsSplitChar_ne_nil sep rest)
    | cons g gs =>
      rw [h] at ih
      simp only [List.headD_cons] at ih
      by_cases hc : c = sep
      · simp [hc, List.takeWhile_cons]
      · simp [hc, List.takeWhile_cons, ih]

theorem takeWhile_self_idem {α : Type} (p : α → Bool) (l : List α) :
    (l.takeWhile p).takeWhile p = l.takeWhile p := by
  induction l with
  | nil => rfl
  | cons a l ih =>
    by_cases h : p a <;> simp [List.takeWhile_cons, h, ih]

/-- The time keys of the equity normalizer's output are the truncations of
the non-empty input datetimes, in order. -/
theorem equity_times (equity : List EquityData) :
    (convertEquityToChartData equity).map (fun p => p.time)
      = ((equity.map (fun p => p.datetime)).filter (fun s => s != "")).map
          truncateDate := by
  induction equity with
  | nil => rfl
  | cons p rest ih =>
    by_cases h : p.datetime = "" <;>
      simp [convertEquityToChartData, List.filter_cons, h] <;>
      simpa [convertEquityToChartData] using ih

/-- The time keys of the candle normalizer's price output are the
truncations of the non-empty input datetimes, in order. -/
theorem candle_times (candles : List BackendCandle) :
    ((convertCandlesToChartData candles).1).map (fun c => c.time)
      = ((candles.map (fun c => c.datetime)).filter (fun s => s != "")).map
          truncateDate := by
  induction candles with
  | nil => rfl
  | cons c rest ih =>
    by_cases h : c.datetime = "" <;>
      simp [convertCandlesToChartData, List.filter_cons, h] <;>
      simpa [convertCandlesToChartData] using ih

/-! ## The claims -/

/-- C7: date truncation is idempotent: for every string `s`, truncating the
truncation of `s` (taking the substring before the first time separator
`'T'`) yields the same result as truncating `s` once; an already-truncated
TimeKey is returned unchanged. -/
theorem truncate_date_idempotent (s : String) :
    truncateDate (truncateDate s) = truncateDate s := by
  show String.mk ((jsSplitChar 'T' ((jsSplitChar 'T' s.data).headD [])).headD [])
      = String.mk ((jsSplitChar 'T' s.data).headD [])
  simp only [jsSplitChar_headD]
  exact congrArg String.mk (takeWhile_self_idem _ _)

/-- C8: destroying the chart surface always succeeds and leaves a null
ref; the deferred (next-tick) resize re-fit callback fired on the
destroyed (null) ref is a successful no-op, not an error; and destroying
an already-destroyed surface is again a successful no-op. -/
theorem destroy_and_deferred_refit_noop (chartRef : Option Chart) :
    destroySurface chartRef = Except.ok none
    ∧ deferredRefit (none : Option Chart) = Except.ok none
    ∧ destroySurface (none : Option Chart) = Except.ok none := by
  refine ⟨?_, rfl, rfl⟩
  cases chartRef <;> rfl

/-- C3: the candle normalizer drops exactly the records with an empty
(falsy) datetime — truncation is a total string operation, so no other
record is unparseable — and produces a price sequence and a volume
sequence of equal length whose `i`-th entries are both derived from the
`i`-th surviving input record, preserving input order with no
deduplication or interpolation. -/
theorem candles_normalizer_aligned_outputs (candles : List BackendCandle)
    (i : Nat) :
    ((convertCandlesToChartData candles).1).length
        = ((convertCandlesToChartData candles).2).length
    ∧ ((convertCandlesToChartData candles).1)[i]?
        = ((candles.filter (fun c => c.datetime != ""))[i]?).map (fun c =>
            { time := truncateDate c.datetime
              open_ := c.open_
              high := c.high
              low := c.low
              close := c.close })
    ∧ ((convertCandlesToChartData candles).2)[i]?
        = ((candles.filter (fun c => c.datetime != ""))[i]?).map (fun c =>
            { time := truncateDate c.datetime
              value := c.volume }) := by
  unfold convertCandlesToChartData
  refine ⟨by simp, ?_, ?_⟩ <;> simp

/-- C6: the equity normalizer filters out exactly the empty-datetime
records and truncates datetimes — the same rule as the candle normalizer,
witnessed by equal TimeKey sequences whenever the input datetimes agree —
renaming the `equity` field to `value`; the empty input yields the empty
series. -/
theorem equity_normalizer_matches_candle_rule (equity : List EquityData)
    (candles : List BackendCandle)
    (h : candles.map (fun c => c.datetime) = equity.map (fun p => p.datetime)) :
    convertEquityToChartData equity
      = (equity.filter (fun p => p.datetime != "")).map (fun p =>
          { time := truncateDate p.datetime
            value := p.equity })
    ∧ (convertEquityToChartData equity).map (fun p => p.time)
        = ((convertCandlesToChartData candles).1).map (fun c => c.time)
    ∧ convertEquityToChartData ([] : List EquityData) = [] := by
  refine ⟨rfl, ?_, rfl⟩
  rw [equity_times, candle_times, h]

/-! Concrete inputs used by witnesses and counterexamples. -/

/-- A record carrying field `a`. -/
def pWithA : IndicatorDataPoint := ⟨"2024-01-01", [("a", JSValue.num 1)]⟩

/-- A later record from which field `a` is absent. -/
def pWithoutA : IndicatorDataPoint := ⟨"2024-01-02", []⟩

/-- An indicator whose sample has field `a` but whose second record lacks it. -/
def indAbsent : List (String × List IndicatorDataPoint) :=
  [("ind", [pWithA, pWithoutA])]

/-- A record whose only field value is JS `null`. -/
def pNullA : IndicatorDataPoint := ⟨"2024-01-01", [("a", JSValue.null)]⟩

/-- An indicator whose single field filters to the empty sequence. -/
def indNull : List (String × List IndicatorDataPoint) := [("x", [pNullA])]

/-- A sample record with fields `a` and `b`. -/
def pSampleAB : IndicatorDataPoint :=
  ⟨"2024-01-01", [("a", JSValue.num 1), ("b", JSValue.num 2)]⟩

/-- A later record that additionally carries field `c`. -/
def pLaterABC : IndicatorDataPoint :=
  ⟨"2024-01-02", [("a", JSValue.num 3), ("b", JSValue.num 4), ("c", JSValue.num 5)]⟩

/-- An indicator whose schema must freeze at the sample `{a, b}`. -/
def indSchema : List (String × List IndicatorDataPoint) :=
  [("macd", [pSampleAB, pLaterABC])]

/-- Two indicators: one with no valid sample record, one well-formed. -/
def indNoSample : List (String × List IndicatorDataPoint) :=
  [("nosample", [⟨"", [("a", JSValue.num 1)]⟩]),
   ("sma", [⟨"2024-01-02", [("value", JSValue.num 50)]⟩])]

/-- C1 counterexample: the normalizer does not remove a record whose field
is absent — JS `undefined !== null` holds, so the absent value passes the
`point[field] !== null` filter and surfaces in the produced LineSeries,
contradicting the claim's \"null/absent value ... removed\". -/
theorem absent_field_value_survives_filter :
    (jsLookup (convertIndicatorsToChartData indAbsent) "ind").bind
        (fun lines => jsLookup lines "a")
      ≠ some (claimedLineDataFor [pWithA, pWithoutA] "a")
    ∧ claimedLineDataFor [pWithA, pWithoutA] "a"
        = [{ time := "2024-01-01", value := some (JSValue.num 1) }]
    ∧ (jsLookup (convertIndicatorsToChartData indAbsent) "ind").bind
        (fun lines => jsLookup lines "a")
      = some [{ time := "2024-01-01", value := some (JSValue.num 1) },
              { time := "2024-01-02", value := none }] := by
  refine ⟨?_, by decide, by decide⟩
  decide

/-- C1 (amended): for every indicator and every field in its inferred
schema, the produced LineSeries is exactly the input record sequence with
records having an empty datetime or a value strictly equal to JS `null`
for that field removed (a record where the field is absent survives,
contributing an entry with an absent value), each surviving record mapped
to `{ time := truncated datetime, value := the raw field value }`; no
null-valued entry ever appears in a produced LineSeries. -/
theorem indicator_line_series_filter_map
    (indicators : List (String × List IndicatorDataPoint))
    (h1 : (indicators.map Prod.fst).Nodup) (name : String)
    (pts : List IndicatorDataPoint) (h2 : (name, pts) ∈ indicators)
    (s : IndicatorDataPoint)
    (h3 : pts.find? (fun p => p.datetime != "") = some s)
    (h4 : (fieldsOfSample s).Nodup) (field : String)
    (h5 : field ∈ fieldsOfSample s) :
    (jsLookup (convertIndicatorsToChartData indicators) name).bind
        (fun lines => jsLookup lines field)
      = some ((pts.filter (fun p =>
            p.datetime != "" && getField p field != some JSValue.null)).map
          (fun p => { time := truncateDate p.datetime
                      value := getField p field }))
    ∧ ∀ e ∈ (pts.filter (fun p =>
          p.datetime != "" && getField p field != some JSValue.null)).map
        (fun p => ({ time := truncateDate p.datetime
                     value := getField p field } : LineData)),
        e.value ≠ some JSValue.null := by
  constructor
  · rw [convertIndicators_lookup indicators h1 name pts h2]
    simp only [Option.some_bind]
    simpa [lineDataFor] using convertOneIndicator_lookup pts s h3 h4 field h5
  · intro e he
    obtain ⟨p, hp, rfl⟩ := List.mem_map.mp he
    have hfilter := (List.mem_filter.mp hp).2
    simp only [Bool.and_eq_true, bne_iff_ne, ne_eq] at hfilter
    simpa using hfilter.2

/-- C1 witness: on the concrete indicator with an absent field, the
characterization applies and evaluates. -/
theorem indicator_line_series_filter_map_witness :
    (jsLookup (convertIndicatorsToChartData indAbsent) "ind").bind
        (fun lines => jsLookup lines "a")
      = some (([pWithA, pWithoutA].filter (fun p =>
            p.datetime != "" && getField p "a" != some JSValue.null)).map
          (fun p => { time := truncateDate p.datetime
                      value := getField p "a" }))
    ∧ ∀ e ∈ ([pWithA, pWithoutA].filter (fun p =>
          p.datetime != "" && getField p "a" != some JSValue.null)).map
        (fun p => ({ time := truncateDate p.datetime
                     value := getField p "a" } : LineData)),
        e.value ≠ some JSValue.null :=
  indicator_line_series_filter_map indAbsent (by decide) "ind"
    [pWithA, pWithoutA] (by decide) pWithA (by decide) (by decide) "a" (by decide)

/-- C2 counterexample: a field whose entire filtered sequence is empty
still receives an entry in the normalizer's output — the empty array, not
no entry — contradicting the claim's \"not even an empty placeholder\". -/
theorem empty_field_series_placeholder_present :
    (jsLookup (convertIndicatorsToChartData indNull) "x").bind
        (fun lines => jsLookup lines "a")
      = some ([] : List LineData)
    ∧ (jsLookup (convertIndicatorsToChartData indNull) "x").bind
        (fun lines => jsLookup lines "a")
      ≠ none := by
  decide

/-- C2 (amended): for every indicator input, a field of the inferred
schema whose entire filtered record sequence is empty still contributes an
entry to the normalizer's output: the indicator's output object maps that
field name to the empty series (an empty placeholder). -/
theorem empty_filtered_field_yields_empty_entry
    (indicators : List (String × List IndicatorDataPoint))
    (h1 : (indicators.map Prod.fst).Nodup) (name : String)
    (pts : List IndicatorDataPoint) (h2 : (name, pts) ∈ indicators)
    (s : IndicatorDataPoint)
    (h3 : pts.find? (fun p => p.datetime != "") = some s)
    (h4 : (fieldsOfSample s).Nodup) (field : String)
    (h5 : field ∈ fieldsOfSample s)
    (h6 : ∀ p ∈ pts, p.datetime = "" ∨ getField p field = some JSValue.null) :
    (jsLookup (convertIndicatorsToChartData indicators) name).bind
        (fun lines => jsLookup lines field)
      = some ([] : List LineData) := by
  rw [convertIndicators_lookup indicators h1 name pts h2]
  simp only [Option.some_bind]
  rw [convertOneIndicator_lookup pts s h3 h4 field h5]
  have hnil : lineDataFor pts field = [] := by
    unfold lineDataFor
    rw [List.filter_eq_nil_iff.mpr, List.map_nil]
    intro p hp
    rcases h6 p hp with h | h <;> simp [h]
  rw [hnil]

/-- C2 witness: the all-null indicator's field gets the empty placeholder. -/
theorem empty_filtered_field_yields_empty_entry_witness :
    (jsLookup (convertIndicatorsToChartData indNull) "x").bind
        (fun lines => jsLookup lines "a")
      = some ([] : List LineData) :=
  empty_filtered_field_yields_empty_entry indNull (by decide) "x" [pNullA]
    (by decide) pNullA (by decide) (by decide) "a" (by decide) (by decide)

/-- C4: the line-name list produced for an indicator is exactly the
non-`datetime` field list of its sample — the first record with a
non-empty datetime — so a field appearing only in later records is never
surfaced; the schema is frozen at that first valid sample. -/
theorem schema_frozen_at_first_valid_sample
    (indicators : List (String × List IndicatorDataPoint))
    (h1 : (indicators.map Prod.fst).Nodup) (name : String)
    (pts : List IndicatorDataPoint) (h2 : (name, pts) ∈ indicators)
    (s : IndicatorDataPoint)
    (h3 : pts.find? (fun p => p.datetime != "") = some s)
    (h4 : (fieldsOfSample s).Nodup) :
    (jsLookup (convertIndicatorsToChartData indicators) name).map
        (fun lines => lines.map Prod.fst)
      = some (fieldsOfSample s) := by
  rw [convertIndicators_lookup indicators h1 name pts h2]
  simp only [Option.map_some']
  have hone : convertOneIndicator pts
      = buildFieldLines pts (fieldsOfSample s) := by
    unfold convertOneIndicator
    rw [h3]
  rw [hone, buildFieldLines_eq_map pts _ h4]
  simp only [List.map_map]
  have hid : (Prod.fst ∘ fun f => (f, lineDataFor pts f)) = id := rfl
  rw [hid, List.map_id]

/-- C4 witness: the sample has fields `{a, b}`; field `c`, present only on
the later record, is never surfaced. -/
theorem schema_frozen_at_first_valid_sample_witness :
    (jsLookup (convertIndicatorsToChartData indSchema) "macd").map
        (fun lines => lines.map Prod.fst)
      = some ["a", "b"] := by
  have h := schema_frozen_at_first_valid_sample indSchema (by decide) "macd"
    [pSampleAB, pLaterABC] (by decide) pSampleAB (by decide) (by decide)
  rw [h]
  decide

/-- C5: an indicator none of whose records has a non-empty datetime
(including the empty record sequence) produces zero lines — its entry in
the output is the empty object — silently (the normalizer is a total
function), and every other indicator's entry is exactly what its own
record sequence alone determines. -/
theorem indicator_without_valid_sample_skipped
    (indicators : List (String × List IndicatorDataPoint))
    (h1 : (indicators.map Prod.fst).Nodup) (name : String)
    (pts : List IndicatorDataPoint) (h2 : (name, pts) ∈ indicators)
    (h3 : ∀ p ∈ pts, p.datetime = "") :
    jsLookup (convertIndicatorsToChartData indicators) name
      = some ([] : List (String × List LineData))
    ∧ ∀ name2 pts2, (name2, pts2) ∈ indicators →
        jsLookup (convertIndicatorsToChartData indicators) name2
          = some (convertOneIndicator pts2) := by
  constructor
  · have hnone : pts.find? (fun p => p.datetime != "") = none := by
      rw [List.find?_eq_none]
      intro p hp
      simp [h3 p hp]
    have hskip : convertOneIndicator pts = [] := by
      unfold convertOneIndicator
      rw [hnone]
    rw [convertIndicators_lookup indicators h1 name pts h2, hskip]
  · intro name2 pts2 hmem2
    exact convertIndicators_lookup indicators h1 name2 pts2 hmem2

/-- C5 witness: the sample-less indicator yields the empty entry while its
well-formed neighbour is unaffected. -/
theorem indicator_without_valid_sample_skipped_witness :
    jsLookup (convertIndicatorsToChartData indNoSample) "nosample"
      = some ([] : List (String × List LineData))
    ∧ jsLookup (convertIndicatorsToChartData indNoSample) "sma"
      = some [("value", [{ time := "2024-01-02"
                           value := some (JSValue.num 50) }])] := by
  have h := indicator_without_valid_sample_skipped indNoSample (by decide)
    "nosample" [⟨"", [("a", JSValue.num 1)]⟩] (by decide) (by decide)
  exact ⟨h.1, by decide⟩

/-- The palette color used for the `i`-th registered line:
`indicatorColors[i % indicatorColors.length]`. -/
def paletteColor (i : Nat) : String :=
  indicatorColors.getD (i % indicatorColors.length) ""

theorem idxFrom_append {α : Type} (l₁ l₂ : List α) :
    ∀ n, idxFrom n (l₁ ++ l₂) = idxFrom n l₁ ++ idxFrom (n + l₁.length) l₂ := by
  induction l₁ with
  | nil => intro n; simp [idxFrom]
  | cons a l ih =>
    intro n
    have harith : n + 1 + l.length = n + (l.length + 1) := by omega
    simp [idxFrom, ih (n + 1), harith]

theorem addLineSeries_foldl (nm : String) (lines : List (String × List LineData)) :
    ∀ (acc : List (String × String)) (ci : Nat),
      lines.foldl (fun st2 line => addLineSeries st2 nm line) (acc, ci)
        = (acc ++ (idxFrom ci ((lines.filter (fun line => line.2 != [])).map
              (fun line => nm ++ "." ++ line.1))).map
            (fun e => (e.2, paletteColor e.1)),
           ci + (lines.filter (fun line => line.2 != [])).length) := by
  induction lines with
  | nil => intro acc ci; simp [idxFrom]
  | cons line rest ih =>
    intro acc ci
    rw [List.foldl_cons]
    by_cases h : line.2 = []
    · have hstep : addLineSeries (acc, ci) nm line = (acc, ci) := by
        simp [addLineSeries, h]
      rw [hstep, ih acc ci]
      simp [List.filter_cons, h]
    · have hstep : addLineSeries (acc, ci) nm line
          = (acc ++ [(nm ++ "." ++ line.1, paletteColor ci)], ci + 1) := by
        simp [addLineSeries, paletteColor, h]
      rw [hstep, ih (acc ++ [(nm ++ "." ++ line.1, paletteColor ci)]) (ci + 1)]
      have harith : ci + 1 + (rest.filter (fun line => line.2 != [])).length
          = ci + ((rest.filter (fun line => line.2 != [])).length + 1) := by omega
      simp [List.filter_cons, h, idxFrom, List.append_assoc, harith, paletteColor]

theorem populate_foldl (d : List (String × List (String × List LineData))) :
    ∀ (acc : List (String × String)) (ci : Nat),
      d.foldl (fun st ind =>
          ind.2.foldl (fun st2 line => addLineSeries st2 ind.1 line) st) (acc, ci)
        = (acc ++ (idxFrom ci (nonEmptyIdentities d)).map
            (fun e => (e.2, paletteColor e.1)),
           ci + (nonEmptyIdentities d).length) := by
  induction d with
  | nil => intro acc ci; simp [nonEmptyIdentities, idxFrom]
  | cons ind rest ih =>
    intro acc ci
    rw [List.foldl_cons, addLineSeries_foldl ind.1 ind.2 acc ci]
    rw [ih]
    have harith : ci + (ind.2.filter (fun line => line.2 != [])).length
          + (nonEmptyIdentities rest).length
        = ci + (nonEmptyIdentities (ind :: rest)).length := by
      simp [nonEmptyIdentities]
      omega
    simp [nonEmptyIdentities, idxFrom_append, List.append_assoc, harith]

/-- C9: color assignment is a deterministic function of registration
order: the series registration loop produces exactly the traversal-order
identity list (indicators in input iteration order, lines within an
indicator in discovery order, empty lines skipped), with the `k`-th
registered identity receiving `indicatorColors[k % 8]` — the fixed palette
in order, wrapping cyclically when exhausted.  Being a pure function of
the input, two runs over identical input produce the identical
color-to-identity mapping. -/
theorem color_assignment_by_registration_order
    (indicatorsData : List (String × List (String × List LineData))) :
    populateIndicatorSeries indicatorsData
      = (idxFrom 0 (nonEmptyIdentities indicatorsData)).map
          (fun e => (e.2, paletteColor e.1)) := by
  unfold populateIndicatorSeries
  rw [populate_foldl indicatorsData [] 0]
  simp

/-- C10: the set of series the `CandlestickChart` component materializes
depends only on its `priceData`, `volumeData`, `equityData` and `height`
inputs: any two renders agreeing on those four values create identical
series, whatever `indicatorsData` and `trades` values the caller passes —
the component declares no such props, so indicator lines and trade
markers are never rendered. -/
theorem chart_series_independent_of_indicators_and_trades
    (p q : PassedProps) (hp : p.priceData = q.priceData)
    (hv : p.volumeData = q.volumeData) (he : p.equityData = q.equityData)
    (_hh : p.height = q.height) :
    materializedSeries p = materializedSeries q := by
  unfold materializedSeries
  rw [hp, hv, he]

/-- Props as `App.tsx` passes them, with indicator data and trades. -/
def propsWithExtras : PassedProps :=
  { priceData := [{ time := "2024-01-01", open_ := 1, high := 2, low := 0, close := 1 }]
    volumeData := [{ time := "2024-01-01", value := 100 }]
    equityData := [{ time := "2024-01-01", value := 10000 }]
    indicatorsData := [("sma", [("value", [{ time := "2024-01-01"
                                             value := some (JSValue.num 50) }])])]
    trades := [{ time := "2024-01-01", type := TradeType.buy, price := some 1 }]
    height := 500 }

/-- The same four declared inputs with no indicator data and no trades. -/
def propsWithoutExtras : PassedProps :=
  { propsWithExtras with indicatorsData := [], trades := [] }

/-- C10 witness: two renders differing only in the undeclared
`indicatorsData` and `trades` attributes materialize identical series. -/
theorem chart_series_independent_witness :
    materializedSeries propsWithExtras = materializedSeries propsWithoutExtras
    ∧ propsWithExtras.indicatorsData ≠ propsWithoutExtras.indicatorsData
    ∧ propsWithExtras.trades ≠ propsWithoutExtras.trades :=
  ⟨chart_series_independent_of_indicators_and_trades propsWithExtras
      propsWithoutExtras rfl rfl rfl rfl,
   by decide, by decide⟩

/-- Equity input for the C6 witness; the middle record has an empty
datetime and must be dropped. -/
def equityEx : List EquityData :=
  [{ datetime := "2024-01-01T05:00:00", equity := 10000 },
   { datetime := "", equity := 1 },
   { datetime := "2024-01-02", equity := 20501/2 }]

/-- Candle input for the C6 witness, with the same datetimes. -/
def candlesEx : List BackendCandle :=
  [{ datetime := "2024-01-01T05:00:00", open_ := 1, high := 2, low := 0,
     close := 1, volume := 100 },
   { datetime := "", open_ := 1, high := 2, low := 0, close := 1, volume := 100 },
   { datetime := "2024-01-02", open_ := 1, high := 2, low := 0, close := 1,
     volume := 100 }]

/-- C6 witness: on concrete aligned inputs the equity normalizer matches
the candle rule, and the resulting TimeKeys evaluate to the truncated
dates. -/
theorem equity_normalizer_matches_candle_rule_witness :
    (convertEquityToChartData equityEx).map (fun p => p.time)
      = ((convertCandlesToChartData candlesEx).1).map (fun c => c.time)
    ∧ (convertEquityToChartData equityEx).map (fun p => p.time)
      = ["2024-01-01", "2024-01-02"] :=
  ⟨(equity_normalizer_matches_candle_rule equityEx candlesEx (by decide)).2.1,
   by decide⟩

end Backtest
